import Mathlib

/-!
Verification of the nuntius channel/subscription/connection registry.

The Go sources under verification are `connection/connection.go` (the
`Connection` type and the `Application` type with its registries).  The
`channel` package itself is not part of the sources, so the `Channel`
operations used by `Application` are modelled from the specification
(section 4.2): they are marked `Modelled from the spec:` below.

Registries (Go `map[string]*T`) are modelled as association lists from
keys to values; Go map assignment, deletion and lookup become
`insertKey`, `eraseKey` and `lookupKey`.  The `expvar` statistics map is
modelled by one `Int` field per counter key (counters start at 0, as an
absent expvar key reads as 0); `expvar.Map.Add` becomes integer
addition.  Pointer aliasing between a `*channel.Channel` argument and
the registry entry with the same identifier is modelled by updating the
registry entry in place (`updateKey`) whenever a channel value is
mutated through such a shared pointer.
-/

namespace Nuntius

/-- Association-list lookup: the value of the first entry whose key matches. -/
def lookupKey {α : Type} (k : String) : List (String × α) → Option α
  | [] => none
  | p :: rest => if p.1 = k then some p.2 else lookupKey k rest

/-- Keys of an association list, in order. -/
def keysOf {α : Type} (l : List (String × α)) : List String :=
  l.map (fun p => p.1)

/-- Replace the value of every entry whose key matches (Go map update through
a shared pointer). -/
def updateKey {α : Type} (k : String) (v : α) (l : List (String × α)) :
    List (String × α) :=
  l.map (fun p => if p.1 = k then (k, v) else p)

/-- Go map assignment `m[k] = v`: replace the entry if the key is present,
append otherwise. -/
def insertKey {α : Type} (k : String) (v : α) (l : List (String × α)) :
    List (String × α) :=
  if (lookupKey k l).isSome then updateKey k v l else l ++ [(k, v)]

/-- Go map deletion `delete(m, k)`: remove every entry whose key matches. -/
def eraseKey {α : Type} (k : String) (l : List (String × α)) :
    List (String × α) :=
  l.filter (fun p => p.1 ≠ k)

/-- Go `strings.HasPrefix`, on the underlying character lists. -/
def hasPre (p s : String) : Bool :=
  p.data.isPrefixOf s.data

/-- `connection.Connection` from `connection/connection.go`: a socket
identifier, the socket write capability (`WriteJSON`, returning `some`
error message on failure), and a creation timestamp.  Messages are kept
opaque and modelled as strings. -/
structure Connection where
  socketID : String
  socket : String → Option String
  createdAt : Nat

/-- `Connection.Publish` from `connection/connection.go`: writes the message
to the socket under the per-connection lock; a write error is logged (the
returned list of log lines) and swallowed, and the connection is returned
unchanged. -/
def Connection.Publish (conn : Connection) (m : String) :
    Connection × List String :=
  match conn.socket m with
  | none => (conn, [])
  | some e => (conn, [("error writing json into Socket, ") ++ e])

/-- Modelled from the spec: the `subscription` package is not in the sources.
A Subscription binds a Connection (identified within a Channel by its socket
identifier) to the Channel, with optional presence member data. -/
structure Subscription where
  socketID : String
  memberData : Option String
  deriving DecidableEq

/-- Modelled from the spec: the five lifecycle listener kinds a Channel can
be wired with at construction. -/
inductive ListenerKind where
  | occupied
  | vacated
  | memberAdded
  | memberRemoved
  | clientEvent
  deriving DecidableEq

/-- Modelled from the spec: the `channel` package is not in the sources.
A Channel has an identifier, a roster mapping socket identifiers to
Subscriptions, and the set of lifecycle listeners supplied at
construction. -/
structure Channel where
  id : String
  subscriptions : List (String × Subscription)
  listeners : List ListenerKind
  deriving DecidableEq

/-- Modelled from the spec: `channel.New` builds an empty Channel with the
given identifier and lifecycle listeners. -/
def Channel.New (id : String) (listeners : List ListenerKind) : Channel :=
  { id := id, subscriptions := [], listeners := listeners }

/-- Modelled from the spec: the channel kind is derived from the
identifier's prefix, `presence-` meaning presence. -/
def Channel.IsPresence (c : Channel) : Bool :=
  hasPre ("presence-") c.id

/-- Modelled from the spec: the channel kind is derived from the
identifier's prefix, `private-` meaning private. -/
def Channel.IsPrivate (c : Channel) : Bool :=
  hasPre ("private-") c.id

/-- Modelled from the spec: a channel that is neither presence nor private
is public. -/
def Channel.IsPublic (c : Channel) : Bool :=
  !(c.IsPresence) && !(c.IsPrivate)

/-- Modelled from the spec: a Channel is occupied iff its roster is
non-empty. -/
def Channel.IsOccupied (c : Channel) : Bool :=
  !(c.subscriptions.isEmpty)

/-- Modelled from the spec: a Connection is subscribed iff its socket
identifier is a key of the roster. -/
def Channel.IsSubscribed (c : Channel) (conn : Connection) : Bool :=
  (lookupKey conn.socketID c.subscriptions).isSome

/-- Modelled from the spec: `Channel.Unsubscribe` fails with NotFound when
the connection is not a current member, and otherwise removes its
Subscription from the roster (lifecycle hooks only trigger external
webhook delivery and are not part of the registry state). -/
def Channel.Unsubscribe (c : Channel) (conn : Connection) :
    Except String Channel :=
  if c.IsSubscribed conn then
    Except.ok { c with subscriptions := eraseKey conn.socketID c.subscriptions }
  else
    Except.error ("subscription not found")

/-- `app.Application` from `connection/connection.go`: tenant settings, the
channel registry, the connection registry, and the expvar counters. -/
structure Application where
  name : String
  appID : String
  key : String
  secret : String
  onlySSL : Bool
  enabled : Bool
  userEvents : Bool
  webHooks : Bool
  urlWebHook : String
  channels : List (String × Channel)
  connections : List (String × Connection)
  totalConnections : Int
  totalChannels : Int
  totalPresenceChannels : Int
  totalPrivateChannels : Int
  totalPublicChannels : Int

/-- `app.NewApplication`: empty registries, all counters absent (read as 0). -/
def newApplication (name appID key secret : String)
    (onlySSL enabled userEvents webHooks : Bool)
    (urlWebHook : String) : Application :=
  { name := name, appID := appID, key := key, secret := secret
    onlySSL := onlySSL, enabled := enabled, userEvents := userEvents
    webHooks := webHooks, urlWebHook := urlWebHook
    channels := [], connections := []
    totalConnections := 0, totalChannels := 0
    totalPresenceChannels := 0, totalPrivateChannels := 0
    totalPublicChannels := 0 }

/-- `Application.Channels`: all registered channels. -/
def Application.Channels (a : Application) : List Channel :=
  a.channels.map (fun p => p.2)

/-- `Application.PresenceChannels`: the registered presence channels. -/
def Application.PresenceChannels (a : Application) : List Channel :=
  (a.channels.map (fun p => p.2)).filter (fun c => c.IsPresence)

/-- `Application.PrivateChannels`: the registered private channels. -/
def Application.PrivateChannels (a : Application) : List Channel :=
  (a.channels.map (fun p => p.2)).filter (fun c => c.IsPrivate)

/-- `Application.PublicChannels`: the registered public channels. -/
def Application.PublicChannels (a : Application) : List Channel :=
  (a.channels.map (fun p => p.2)).filter (fun c => c.IsPublic)

/-- `Application.FindConnection`: registry lookup, NotFound error on a miss. -/
def Application.FindConnection (a : Application) (socketID : String) :
    Except String Connection :=
  match lookupKey socketID a.connections with
  | some conn => Except.ok conn
  | none => Except.error ("connection not found")

/-- `Application.Connect`: store the connection under its socket identifier
and increment the connection counter. -/
def Application.Connect (a : Application) (conn : Connection) : Application :=
  { a with connections := insertKey conn.socketID conn a.connections
           totalConnections := a.totalConnections + 1 }

/-- The channel-iteration loop of `Application.Disconnect`: each channel the
connection is subscribed to has `Channel.Unsubscribe` applied to it (through
the shared pointer held in the registry); an unsubscribe error is logged and
the loop continues with that channel unchanged. -/
def disconnectChannels (chans : List (String × Channel)) (conn : Connection) :
    List (String × Channel) :=
  chans.map (fun p => (p.1,
    if p.2.IsSubscribed conn then
      match p.2.Unsubscribe conn with
      | Except.ok c' => c'
      | Except.error _ => p.2
    else p.2))

/-- `Application.Disconnect`: look the connection up (returning silently on a
miss), unsubscribe it from every channel it belongs to, then re-check its
registry entry and, when still present, delete it and decrement the
connection counter. -/
def Application.Disconnect (a : Application) (socketID : String) : Application :=
  match a.FindConnection socketID with
  | Except.error _ => a
  | Except.ok conn =>
    let a1 : Application := { a with channels := disconnectChannels a.channels conn }
    match lookupKey conn.socketID a1.connections with
    | none => a1
    | some _ =>
      { a1 with connections := eraseKey conn.socketID a1.connections
                totalConnections := a1.totalConnections - 1 }

/-- `Application.AddChannel`: register the channel under its identifier and
increment the counter of its kind and the total-channels counter. -/
def Application.AddChannel (a : Application) (c : Channel) : Application :=
  { a with channels := insertKey c.id c a.channels
           totalPresenceChannels :=
             if c.IsPresence then a.totalPresenceChannels + 1
             else a.totalPresenceChannels
           totalPrivateChannels :=
             if c.IsPrivate then a.totalPrivateChannels + 1
             else a.totalPrivateChannels
           totalPublicChannels :=
             if c.IsPublic then a.totalPublicChannels + 1
             else a.totalPublicChannels
           totalChannels := a.totalChannels + 1 }

/-- `Application.RemoveChannel`: delete the channel's identifier from the
registry and decrement the counter of its kind and the total-channels
counter. -/
def Application.RemoveChannel (a : Application) (c : Channel) : Application :=
  { a with channels := eraseKey c.id a.channels
           totalPresenceChannels :=
             if c.IsPresence then a.totalPresenceChannels - 1
             else a.totalPresenceChannels
           totalPrivateChannels :=
             if c.IsPrivate then a.totalPrivateChannels - 1
             else a.totalPrivateChannels
           totalPublicChannels :=
             if c.IsPublic then a.totalPublicChannels - 1
             else a.totalPublicChannels
           totalChannels := a.totalChannels - 1 }

/-- `Application.FindChannelByChannelID`: registry lookup, NotFound error on
a miss. -/
def Application.FindChannelByChannelID (a : Application) (n : String) :
    Except String Channel :=
  match lookupKey n a.channels with
  | some c => Except.ok c
  | none => Except.error ("channel does not exists")

/-- The five lifecycle listeners `FindOrCreateChannelByChannelID` wires into
a newly created channel. -/
def allListenerKinds : List ListenerKind :=
  [ListenerKind.occupied, ListenerKind.vacated, ListenerKind.memberAdded,
   ListenerKind.memberRemoved, ListenerKind.clientEvent]

/-- `Application.FindOrCreateChannelByChannelID`: return the registered
channel when the lookup succeeds; otherwise create a channel wired with all
five lifecycle listeners, register it via `AddChannel`, and return it
together with the updated application. -/
def Application.FindOrCreateChannelByChannelID (a : Application) (n : String) :
    Channel × Application :=
  match a.FindChannelByChannelID n with
  | Except.ok c => (c, a)
  | Except.error _ =>
    let c := Channel.New n allListenerKinds
    (c, a.AddChannel c)

/-- `Application.Unsubscribe`: delegate to `Channel.Unsubscribe`, returning
its error (and leaving the application untouched) on failure; on success the
mutation of the shared channel is reflected in the registry, and the channel
is removed from the registry when it is no longer occupied.  The result
pairs the new application state with the returned error, if any. -/
def Application.Unsubscribe (a : Application) (c : Channel) (conn : Connection) :
    Application × Option String :=
  match c.Unsubscribe conn with
  | Except.error e => (a, some e)
  | Except.ok c' =>
    let a1 : Application := { a with channels := updateKey c.id c' a.channels }
    if c'.IsOccupied then (a1, none) else (a1.RemoveChannel c', none)

/-- The states reachable from a fresh application by arbitrary sequences of
`Connect`, `Disconnect`, `AddChannel` and `RemoveChannel`. -/
inductive ReachableRaw : Application → Prop where
  | base : ∀ n i k s o e u w url, ReachableRaw (newApplication n i k s o e u w url)
  | connect : ∀ a conn, ReachableRaw a → ReachableRaw (a.Connect conn)
  | disconnect : ∀ a sid, ReachableRaw a → ReachableRaw (a.Disconnect sid)
  | addChannel : ∀ a c, ReachableRaw a → ReachableRaw (a.AddChannel c)
  | removeChannel : ∀ a c, ReachableRaw a → ReachableRaw (a.RemoveChannel c)

/-- The states reachable from a fresh application when `Connect` is only
called for socket identifiers that are not yet registered, `AddChannel`
only for channel identifiers that are not yet registered, and
`RemoveChannel` only for channels whose identifier is registered
(`Disconnect` is unrestricted). -/
inductive Reachable : Application → Prop where
  | base : ∀ n i k s o e u w url, Reachable (newApplication n i k s o e u w url)
  | connect : ∀ a conn, Reachable a →
      lookupKey conn.socketID a.connections = none → Reachable (a.Connect conn)
  | disconnect : ∀ a sid, Reachable a → Reachable (a.Disconnect sid)
  | addChannel : ∀ a c, Reachable a →
      lookupKey c.id a.channels = none → Reachable (a.AddChannel c)
  | removeChannel : ∀ a c, Reachable a →
      c.id ∈ keysOf a.channels → Reachable (a.RemoveChannel c)

/-- The counter invariants: the connection counter equals the size of the
connection registry, the total-channels counter equals the size of the
channel registry, and the per-kind counters sum to the total. -/
def CounterInv (a : Application) : Prop :=
  a.totalConnections = (a.connections.length : Int) ∧
  a.totalChannels = (a.channels.length : Int) ∧
  a.totalPresenceChannels + a.totalPrivateChannels + a.totalPublicChannels =
    a.totalChannels

/-- Registry well-formedness used in the induction: both registries have
pairwise distinct keys. -/
def RegInv (a : Application) : Prop :=
  (keysOf a.connections).Nodup ∧ (keysOf a.channels).Nodup

/-- Well-formedness of the channel registry: distinct keys, each mapping
a channel identifier to a channel carrying that identifier. -/
def WFChannels (a : Application) : Prop :=
  (keysOf a.channels).Nodup ∧ ∀ p ∈ a.channels, p.2.id = p.1

/-! Concrete fixtures used by counterexamples and witnesses. -/

/-- A socket whose writes always succeed. -/
def sockOK : String → Option String := fun _ => none

/-- A socket whose writes always fail. -/
def sockBad : String → Option String := fun _ => some ("boom")

/-- A test connection with socket identifier s1. -/
def connA : Connection :=
  { socketID := "s1", socket := sockOK, createdAt := 0 }

/-- A second test connection sharing socket identifier s1. -/
def connA2 : Connection :=
  { socketID := "s1", socket := sockOK, createdAt := 5 }

/-- A test connection with socket identifier s2. -/
def connB : Connection :=
  { socketID := "s2", socket := sockOK, createdAt := 1 }

/-- A test connection whose socket always fails to write. -/
def connBad : Connection :=
  { socketID := "s9", socket := sockBad, createdAt := 2 }

/-- The subscription binding connection s1 to a channel. -/
def subA : Subscription := { socketID := "s1", memberData := none }

/-- A public channel occupied by connection s1. -/
def chRoom : Channel :=
  { id := "room", subscriptions := [("s1", subA)], listeners := [] }

/-- The channel `chRoom` after its only member left. -/
def chRoomEmpty : Channel :=
  { id := "room", subscriptions := [], listeners := [] }

/-- An empty presence channel. -/
def chPres : Channel :=
  { id := "presence-a", subscriptions := [], listeners := [] }

/-- An empty private channel, not registered anywhere. -/
def chPriv : Channel := Channel.New ("private-x") []

/-- A fresh test application. -/
def baseApp : Application :=
  newApplication ("test") ("1") ("key") ("secret") false true false false ("")

/-- A test application with connection s1 registered and subscribed to the
registered channel `chRoom`. -/
def appC1 : Application :=
  { baseApp with channels := [("room", chRoom)]
                 connections := [("s1", connA)]
                 totalConnections := 1
                 totalChannels := 1
                 totalPublicChannels := 1 }

/-- A test application whose channel registry holds a presence channel and
a public channel. -/
def appC8 : Application :=
  { baseApp with channels := [("presence-a", chPres), ("room", chRoomEmpty)]
                 totalChannels := 2
                 totalPresenceChannels := 1
                 totalPublicChannels := 1 }

/-- The state after connecting the same socket identifier twice. -/
def appDup : Application := (baseApp.Connect connA).Connect connA2

/-! Helper lemmas about the association-list registries. -/

theorem keysOf_nil {α : Type} : keysOf ([] : List (String × α)) = [] := rfl

theorem keysOf_cons {α : Type} (p : String × α) (l : List (String × α)) :
    keysOf (p :: l) = p.1 :: keysOf l := rfl

theorem keysOf_append {α : Type} (l m : List (String × α)) :
    keysOf (l ++ m) = keysOf l ++ keysOf m :=
  List.map_append _ _ _

theorem lookupKey_nil {α : Type} (k : String) :
    lookupKey k ([] : List (String × α)) = none := rfl

theorem lookupKey_cons {α : Type} (k : String) (p : String × α)
    (l : List (String × α)) :
    lookupKey k (p :: l) = if p.1 = k then some p.2 else lookupKey k l := rfl

theorem eraseKey_nil {α : Type} (k : String) :
    eraseKey k ([] : List (String × α)) = [] := rfl

theorem eraseKey_cons {α : Type} (k : String) (p : String × α)
    (l : List (String × α)) :
    eraseKey k (p :: l) =
      if p.1 = k then eraseKey k l else p :: eraseKey k l := by
  by_cases h : p.1 = k <;> simp [eraseKey, List.filter_cons, h]

theorem lookupKey_eq_none_iff {α : Type} (k : String) (l : List (String × α)) :
    lookupKey k l = none ↔ k ∉ keysOf l := by
  induction l with
  | nil => simp [lookupKey_nil, keysOf_nil]
  | cons p rest ih =>
    rw [lookupKey_cons, keysOf_cons]
    by_cases h : p.1 = k
    · simp [h]
    · rw [if_neg h, ih]
      simp only [List.mem_cons]
      constructor
      · intro hk hmem
        rcases hmem with hmem | hmem
        · exact h hmem.symm
        · exact hk hmem
      · intro hk hmem
        exact hk (Or.inr hmem)

theorem lookupKey_isSome_iff {α : Type} (k : String) (l : List (String × α)) :
    (lookupKey k l).isSome = true ↔ k ∈ keysOf l := by
  rcases hl : lookupKey k l with _ | v
  · rw [lookupKey_eq_none_iff] at hl
    simp [hl]
  · have hne : ¬ lookupKey k l = none := by simp [hl]
    rw [lookupKey_eq_none_iff] at hne
    simp only [not_not] at hne
    simp [hne]

theorem lookupKey_mem {α : Type} {k : String} {v : α} {l : List (String × α)} :
    lookupKey k l = some v → (k, v) ∈ l := by
  induction l with
  | nil => simp [lookupKey_nil]
  | cons p rest ih =>
    rw [lookupKey_cons]
    by_cases h : p.1 = k
    · rw [if_pos h]
      intro hv
      have hv' : p.2 = v := by
        injection hv
      rw [← h, ← hv']
      exact List.mem_cons_self _ _
    · rw [if_neg h]
      intro hv
      exact List.mem_cons_of_mem _ (ih hv)

theorem lookupKey_of_mem_nodup {α : Type} {k : String} {v : α}
    {l : List (String × α)} (hn : (keysOf l).Nodup) (hm : (k, v) ∈ l) :
    lookupKey k l = some v := by
  induction l with
  | nil => simp at hm
  | cons p rest ih =>
    rw [keysOf_cons, List.nodup_cons] at hn
    rw [lookupKey_cons]
    rcases List.mem_cons.mp hm with hm | hm
    · rw [← hm]
      simp
    · have hk : k ∈ keysOf rest := List.mem_map_of_mem (fun q => q.1) hm
      have hne : p.1 ≠ k := by
        intro he
        exact hn.1 (he ▸ hk)
      rw [if_neg hne]
      exact ih hn.2 hm

theorem eraseKey_of_not_mem {α : Type} {k : String} {l : List (String × α)}
    (h : k ∉ keysOf l) : eraseKey k l = l := by
  induction l with
  | nil => rfl
  | cons p rest ih =>
    rw [keysOf_cons, List.mem_cons] at h
    push_neg at h
    rw [eraseKey_cons, if_neg (fun he => h.1 he.symm), ih h.2]

theorem lookupKey_eraseKey_self {α : Type} (k : String) (l : List (String × α)) :
    lookupKey k (eraseKey k l) = none := by
  induction l with
  | nil => rfl
  | cons p rest ih =>
    rw [eraseKey_cons]
    by_cases h : p.1 = k
    · rw [if_pos h]
      exact ih
    · rw [if_neg h, lookupKey_cons, if_neg h]
      exact ih

theorem length_eraseKey_nodup {α : Type} {k : String} {l : List (String × α)}
    (hn : (keysOf l).Nodup) (hm : k ∈ keysOf l) :
    (eraseKey k l).length + 1 = l.length := by
  induction l with
  | nil =>
    rw [keysOf_nil] at hm
    exact absurd hm (List.not_mem_nil k)
  | cons p rest ih =>
    rw [keysOf_cons, List.nodup_cons] at hn
    rw [keysOf_cons, List.mem_cons] at hm
    rw [eraseKey_cons]
    by_cases h : p.1 = k
    · rw [if_pos h]
      have hk : k ∉ keysOf rest := h ▸ hn.1
      rw [eraseKey_of_not_mem hk]
      rfl
    · rcases hm with hm | hm
      · exact absurd hm.symm h
      · rw [if_neg h]
        simp only [List.length_cons]
        rw [ih hn.2 hm]

theorem keysOf_eraseKey_sublist {α : Type} (k : String) (l : List (String × α)) :
    (keysOf (eraseKey k l)).Sublist (keysOf l) := by
  simp only [keysOf, eraseKey]
  exact List.Sublist.map _ (List.filter_sublist l)

theorem updateKey_cons {α : Type} (k : String) (v : α) (p : String × α)
    (l : List (String × α)) :
    updateKey k v (p :: l) =
      (if p.1 = k then (k, v) else p) :: updateKey k v l := rfl

theorem keysOf_updateKey {α : Type} (k : String) (v : α) (l : List (String × α)) :
    keysOf (updateKey k v l) = keysOf l := by
  induction l with
  | nil => rfl
  | cons p rest ih =>
    rw [updateKey_cons, keysOf_cons, keysOf_cons, ih]
    by_cases h : p.1 = k
    · rw [if_pos h, h]
    · rw [if_neg h]

theorem length_updateKey {α : Type} (k : String) (v : α) (l : List (String × α)) :
    (updateKey k v l).length = l.length :=
  List.length_map _ _

theorem lookupKey_updateKey_self {α : Type} {k : String} (v : α)
    {l : List (String × α)} (hm : k ∈ keysOf l) :
    lookupKey k (updateKey k v l) = some v := by
  induction l with
  | nil =>
    rw [keysOf_nil] at hm
    exact absurd hm (List.not_mem_nil k)
  | cons p rest ih =>
    rw [keysOf_cons, List.mem_cons] at hm
    rw [updateKey_cons]
    by_cases h : p.1 = k
    · rw [if_pos h, lookupKey_cons]
      simp
    · rcases hm with hm | hm
      · exact absurd hm.symm h
      · rw [if_neg h, lookupKey_cons, if_neg h]
        exact ih hm

theorem insertKey_of_none {α : Type} {k : String} (v : α)
    {l : List (String × α)} (h : lookupKey k l = none) :
    insertKey k v l = l ++ [(k, v)] := by
  rw [insertKey, h]
  rfl

theorem insertKey_of_isSome {α : Type} {k : String} (v : α)
    {l : List (String × α)} (h : (lookupKey k l).isSome = true) :
    insertKey k v l = updateKey k v l := by
  rw [insertKey, h]
  rfl

theorem lookupKey_append_right {α : Type} {k : String} {l : List (String × α)}
    (m : List (String × α)) (h : k ∉ keysOf l) :
    lookupKey k (l ++ m) = lookupKey k m := by
  induction l with
  | nil => rfl
  | cons p rest ih =>
    rw [keysOf_cons, List.mem_cons] at h
    push_neg at h
    rw [List.cons_append, lookupKey_cons, if_neg (fun he => h.1 he.symm)]
    exact ih h.2

/-! Helper lemmas about channels and the per-application operations. -/

theorem presence_private_exclusive {s : String}
    (h1 : hasPre ("presence-") s = true) (h2 : hasPre ("private-") s = true) :
    False := by
  rw [hasPre, List.isPrefixOf_iff_prefix] at h1 h2
  rcases List.prefix_or_prefix_of_prefix h1 h2 with h | h
  · exact absurd h (by decide)
  · exact absurd h (by decide)

theorem channel_kind_cases (c : Channel) :
    (c.IsPresence = true ∧ c.IsPrivate = false ∧ c.IsPublic = false) ∨
    (c.IsPresence = false ∧ c.IsPrivate = true ∧ c.IsPublic = false) ∨
    (c.IsPresence = false ∧ c.IsPrivate = false ∧ c.IsPublic = true) := by
  rcases hp : c.IsPresence with _ | _
  · rcases hq : c.IsPrivate with _ | _
    · right; right
      simp [Channel.IsPublic, hp, hq]
    · right; left
      simp [Channel.IsPublic, hp, hq]
  · left
    have hq : c.IsPrivate = false := by
      rcases hq : c.IsPrivate with _ | _
      · rfl
      · exact absurd (presence_private_exclusive hp hq) (fun h => h)
    simp [Channel.IsPublic, hp, hq]

theorem Channel.Unsubscribe_id {c c' : Channel} {conn : Connection}
    (h : c.Unsubscribe conn = Except.ok c') : c'.id = c.id := by
  rw [Channel.Unsubscribe] at h
  by_cases hs : c.IsSubscribed conn
  · rw [if_pos hs] at h
    injection h with h
    rw [← h]
  · rw [if_neg hs] at h
    exact absurd h (by simp)

theorem Channel.Unsubscribe_of_subscribed {c : Channel} {conn : Connection}
    (h : c.IsSubscribed conn = true) :
    c.Unsubscribe conn =
      Except.ok { c with subscriptions := eraseKey conn.socketID c.subscriptions } := by
  rw [Channel.Unsubscribe, if_pos h]

theorem Channel.not_subscribed_erase (c : Channel) (conn : Connection) :
    Channel.IsSubscribed
      { c with subscriptions := eraseKey conn.socketID c.subscriptions } conn =
      false := by
  rw [Channel.IsSubscribed]
  simp [lookupKey_eraseKey_self]

theorem keysOf_disconnectChannels (l : List (String × Channel))
    (conn : Connection) : keysOf (disconnectChannels l conn) = keysOf l := by
  rw [disconnectChannels, keysOf, List.map_map]
  rfl

theorem length_disconnectChannels (l : List (String × Channel))
    (conn : Connection) : (disconnectChannels l conn).length = l.length :=
  List.length_map _ _

theorem findConnection_none {a : Application} {sid : String}
    (h : lookupKey sid a.connections = none) :
    a.FindConnection sid = Except.error ("connection not found") := by
  simp only [Application.FindConnection, h]

theorem disconnect_err {a : Application} {sid : String} {e : String}
    (hf : a.FindConnection sid = Except.error e) : a.Disconnect sid = a := by
  simp only [Application.Disconnect, hf]

theorem disconnect_ok_channels {a : Application} {sid : String}
    {conn0 : Connection} (hf : a.FindConnection sid = Except.ok conn0) :
    (a.Disconnect sid).channels = disconnectChannels a.channels conn0 := by
  simp only [Application.Disconnect, hf]
  split
  · rfl
  · rfl

theorem disconnectChannels_not_subscribed {l : List (String × Channel)}
    {conn : Connection} {k : String} {c' : Channel}
    (h : lookupKey k (disconnectChannels l conn) = some c') :
    c'.IsSubscribed conn = false := by
  have hmem := lookupKey_mem h
  simp only [disconnectChannels] at hmem
  rcases List.mem_map.mp hmem with ⟨p, hp, he⟩
  have he2 : (if p.2.IsSubscribed conn then
      match p.2.Unsubscribe conn with
      | Except.ok c'' => c''
      | Except.error _ => p.2
    else p.2) = c' := congrArg Prod.snd he
  rcases hs : p.2.IsSubscribed conn with _ | _
  · rw [hs] at he2
    simp only [Bool.false_eq_true, if_false] at he2
    rw [← he2]
    exact hs
  · rw [hs] at he2
    simp only [if_true] at he2
    rw [Channel.Unsubscribe_of_subscribed hs] at he2
    simp only [] at he2
    rw [← he2]
    exact Channel.not_subscribed_erase p.2 conn

/-! The claim theorems. -/

/-- Claim C1, counterexample: in `appC1` connection s1 is the only member of
the registered channel room; after `Disconnect` of s1 the channel has been
emptied but is still registered, so `FindChannelByChannelID` succeeds on it
instead of reporting NotFound as the claim requires. -/
theorem disconnect_leaves_empty_channel_registered :
    (appC1.Disconnect ("s1")).FindChannelByChannelID ("room") =
      Except.ok chRoomEmpty ∧
    chRoomEmpty.IsOccupied = false :=
  ⟨rfl, rfl⟩

/-- Claim C1, amended: Disconnect unsubscribes the connection from every
channel it belonged to, but prunes no channel: the registry's key list is
unchanged, so a channel left empty stays registered. -/
theorem disconnect_removes_connection_from_all_channels
    (a : Application) (sid : String) (conn : Connection) (k : String)
    (c' : Channel) :
    keysOf ((a.Disconnect sid).channels) = keysOf a.channels ∧
    (a.FindConnection sid = Except.ok conn →
      lookupKey k ((a.Disconnect sid).channels) = some c' →
      c'.IsSubscribed conn = false) := by
  constructor
  · rcases hf : a.FindConnection sid with e | conn0
    · rw [disconnect_err hf]
    · rw [disconnect_ok_channels hf, keysOf_disconnectChannels]
  · intro hf hlk
    rw [disconnect_ok_channels hf] at hlk
    exact disconnectChannels_not_subscribed hlk

/-- Witness for the amended C1 theorem at a concrete application. -/
theorem disconnect_removes_connection_from_all_channels_inst :
    keysOf ((appC1.Disconnect ("s1")).channels) = keysOf appC1.channels ∧
    chRoomEmpty.IsSubscribed connA = false :=
  ⟨(disconnect_removes_connection_from_all_channels appC1 ("s1") connA ("room")
      chRoomEmpty).1,
   (disconnect_removes_connection_from_all_channels appC1 ("s1") connA ("room")
      chRoomEmpty).2 rfl rfl⟩

/-- Claim C3, counterexample: `chRoom` is registered in `appC1` and its
roster is non-empty, yet `RemoveChannel` deletes it from the registry —
there is no occupancy re-check before deletion. -/
theorem removeChannel_deletes_occupied_channel :
    chRoom.IsOccupied = true ∧
    lookupKey chRoom.id ((appC1.RemoveChannel chRoom).channels) = none :=
  ⟨rfl, rfl⟩

/-- Claim C3, amended: RemoveChannel performs no occupancy verification at
all; it unconditionally deletes the channel's identifier from the registry
and decrements the total-channels counter, whether or not the roster is
empty. -/
theorem removeChannel_deletes_unconditionally (a : Application) (c : Channel) :
    lookupKey c.id ((a.RemoveChannel c).channels) = none ∧
    (a.RemoveChannel c).totalChannels = a.totalChannels - 1 :=
  ⟨lookupKey_eraseKey_self c.id a.channels, rfl⟩

/-- Claim C4: disconnecting a socket identifier absent from the connection
registry returns without error and leaves the application state fully
unchanged. -/
theorem disconnect_unknown_socket_noop (a : Application) (sid : String)
    (h : lookupKey sid a.connections = none) :
    a.Disconnect sid = a :=
  disconnect_err (findConnection_none h)

/-- Witness for C4 at a concrete application and unknown socket. -/
theorem disconnect_unknown_socket_noop_inst :
    lookupKey ("zzz") appC1.connections = none ∧
    appC1.Disconnect ("zzz") = appC1 :=
  ⟨rfl, disconnect_unknown_socket_noop appC1 ("zzz") rfl⟩

/-- Claim C7: Connection.Publish returns the connection unchanged whatever
the socket write returns; a write failure only produces a log line and is
never propagated. -/
theorem connection_publish_swallows_errors (conn : Connection) (m e : String) :
    (conn.Publish m).1 = conn ∧
    (conn.socket m = some e →
      (conn.Publish m).2 = [("error writing json into Socket, ") ++ e]) := by
  rcases h : conn.socket m with _ | e'
  · constructor
    · simp [Connection.Publish, h]
    · intro he
      exact absurd he (by simp)
  · constructor
    · simp [Connection.Publish, h]
    · intro he
      injection he with he2
      simp [Connection.Publish, h, he2]

/-- Witness for C7 at a connection whose socket always fails. -/
theorem connection_publish_swallows_errors_inst :
    connBad.socket ("x") = some ("boom") ∧
    (connBad.Publish ("x")).1 = connBad ∧
    (connBad.Publish ("x")).2 = [("error writing json into Socket, ") ++ ("boom")] :=
  ⟨rfl, (connection_publish_swallows_errors connBad ("x") ("boom")).1,
    (connection_publish_swallows_errors connBad ("x") ("boom")).2 rfl⟩

/-- Claim C9: connecting a connection whose socket identifier is already
registered replaces the registry entry with the new connection and still
increments the connection counter, so the counter grows while the registry
does not. -/
theorem duplicate_connect_replaces_and_increments (a : Application)
    (conn old : Connection)
    (h : lookupKey conn.socketID a.connections = some old) :
    lookupKey conn.socketID ((a.Connect conn).connections) = some conn ∧
    ((a.Connect conn).connections).length = a.connections.length ∧
    (a.Connect conn).totalConnections = a.totalConnections + 1 := by
  have hs : (lookupKey conn.socketID a.connections).isSome = true := by
    rw [h]
    rfl
  have hm : conn.socketID ∈ keysOf a.connections :=
    (lookupKey_isSome_iff _ _).mp hs
  refine ⟨?_, ?_, rfl⟩
  · show lookupKey conn.socketID (insertKey conn.socketID conn a.connections) =
      some conn
    rw [insertKey_of_isSome _ hs]
    exact lookupKey_updateKey_self _ hm
  · show (insertKey conn.socketID conn a.connections).length =
      a.connections.length
    rw [insertKey_of_isSome _ hs, length_updateKey]

/-- Witness for C9: connecting a second connection with socket identifier
s1 on top of `appC1`. -/
theorem duplicate_connect_replaces_and_increments_inst :
    lookupKey connA2.socketID appC1.connections = some connA ∧
    lookupKey connA2.socketID ((appC1.Connect connA2).connections) = some connA2 ∧
    ((appC1.Connect connA2).connections).length = appC1.connections.length ∧
    (appC1.Connect connA2).totalConnections = appC1.totalConnections + 1 :=
  ⟨rfl, (duplicate_connect_replaces_and_increments appC1 connA2 connA rfl).1,
    (duplicate_connect_replaces_and_increments appC1 connA2 connA rfl).2.1,
    (duplicate_connect_replaces_and_increments appC1 connA2 connA rfl).2.2⟩

/-- Claim C10: RemoveChannel on a channel whose identifier is not registered
leaves the channel registry unchanged but still decrements the
total-channels counter and the counter of the channel's kind. -/
theorem removeChannel_unregistered_decrements (a : Application) (c : Channel)
    (h : lookupKey c.id a.channels = none) :
    (a.RemoveChannel c).channels = a.channels ∧
    (a.RemoveChannel c).totalChannels = a.totalChannels - 1 ∧
    (c.IsPresence = true →
      (a.RemoveChannel c).totalPresenceChannels = a.totalPresenceChannels - 1) ∧
    (c.IsPrivate = true →
      (a.RemoveChannel c).totalPrivateChannels = a.totalPrivateChannels - 1) ∧
    (c.IsPublic = true →
      (a.RemoveChannel c).totalPublicChannels = a.totalPublicChannels - 1) := by
  rw [lookupKey_eq_none_iff] at h
  refine ⟨?_, rfl, ?_, ?_, ?_⟩
  · show eraseKey c.id a.channels = a.channels
    exact eraseKey_of_not_mem h
  · intro hk
    show (if c.IsPresence then a.totalPresenceChannels - 1
      else a.totalPresenceChannels) = a.totalPresenceChannels - 1
    rw [if_pos hk]
  · intro hk
    show (if c.IsPrivate then a.totalPrivateChannels - 1
      else a.totalPrivateChannels) = a.totalPrivateChannels - 1
    rw [if_pos hk]
  · intro hk
    show (if c.IsPublic then a.totalPublicChannels - 1
      else a.totalPublicChannels) = a.totalPublicChannels - 1
    rw [if_pos hk]

/-- Witness for C10: removing the unregistered private channel `chPriv`
from the fresh `baseApp` drives the counters to −1. -/
theorem removeChannel_unregistered_decrements_inst :
    lookupKey chPriv.id baseApp.channels = none ∧
    (baseApp.RemoveChannel chPriv).channels = baseApp.channels ∧
    (baseApp.RemoveChannel chPriv).totalChannels = baseApp.totalChannels - 1 ∧
    (baseApp.RemoveChannel chPriv).totalPrivateChannels =
      baseApp.totalPrivateChannels - 1 :=
  ⟨rfl, (removeChannel_unregistered_decrements baseApp chPriv rfl).1,
    (removeChannel_unregistered_decrements baseApp chPriv rfl).2.1,
    (removeChannel_unregistered_decrements baseApp chPriv rfl).2.2.2.1 rfl⟩

/-- Claim C5: Application.Unsubscribe returns Channel.Unsubscribe's error
and leaves the whole application (registry and counters) untouched when
that call fails; on success no error is returned, and the channel's
identifier is removed from the registry exactly when the channel is
unoccupied afterward (an occupied channel removes nothing: the registry's
key list is unchanged). -/
theorem app_unsubscribe_spec (a : Application) (c : Channel)
    (conn : Connection) (e : String) (c' : Channel) :
    (c.Unsubscribe conn = Except.error e →
      a.Unsubscribe c conn = (a, some e)) ∧
    (c.Unsubscribe conn = Except.ok c' →
      ((a.Unsubscribe c conn).2 = none ∧
       (c'.IsOccupied = true →
         keysOf ((a.Unsubscribe c conn).1.channels) = keysOf a.channels) ∧
       (c'.IsOccupied = false →
         lookupKey c.id ((a.Unsubscribe c conn).1.channels) = none))) := by
  constructor
  · intro he
    simp only [Application.Unsubscribe, he]
  · intro hok
    have hid : c'.id = c.id := Channel.Unsubscribe_id hok
    rcases ho : c'.IsOccupied with _ | _
    · have hres : a.Unsubscribe c conn =
          (({ a with channels := updateKey c.id c' a.channels} :
            Application).RemoveChannel c', none) := by
        simp only [Application.Unsubscribe, hok, ho]
        simp
      refine ⟨?_, ?_, ?_⟩
      · rw [hres]
      · intro hocc
        simp [ho] at hocc
      · intro _
        rw [hres]
        show lookupKey c.id (eraseKey c'.id (updateKey c.id c' a.channels)) = none
        rw [hid]
        exact lookupKey_eraseKey_self _ _
    · have hres : a.Unsubscribe c conn =
          (({ a with channels := updateKey c.id c' a.channels} :
            Application), none) := by
        simp only [Application.Unsubscribe, hok, ho]
        simp
      refine ⟨?_, ?_, ?_⟩
      · rw [hres]
      · intro _
        rw [hres]
        show keysOf (updateKey c.id c' a.channels) = keysOf a.channels
        exact keysOf_updateKey _ _ _
      · intro hocc
        simp [ho] at hocc

/-- Witness for C5: unsubscribing the non-member connection s2 from
`chRoom` fails with NotFound and leaves `appC1` untouched. -/
theorem app_unsubscribe_spec_inst :
    chRoom.Unsubscribe connB = Except.error ("subscription not found") ∧
    appC1.Unsubscribe chRoom connB = (appC1, some ("subscription not found")) :=
  ⟨rfl, (app_unsubscribe_spec appC1 chRoom connB ("subscription not found")
    chRoom).1 rfl⟩

/-- Claim C6: when the identifier is registered,
FindOrCreateChannelByChannelID returns the registered channel and the
unchanged application; otherwise it returns a fresh empty channel carrying
that identifier, wired with all five lifecycle listeners, registered
through AddChannel, so that a subsequent FindChannelByChannelID succeeds
on it. -/
theorem findOrCreateChannel_spec (a : Application) (n : String) (c : Channel) :
    (a.FindChannelByChannelID n = Except.ok c →
      a.FindOrCreateChannelByChannelID n = (c, a)) ∧
    (lookupKey n a.channels = none →
      ((a.FindOrCreateChannelByChannelID n).1 =
        Channel.New n allListenerKinds ∧
       (a.FindOrCreateChannelByChannelID n).2 =
        a.AddChannel (Channel.New n allListenerKinds) ∧
       (a.FindOrCreateChannelByChannelID n).2.FindChannelByChannelID n =
        Except.ok (Channel.New n allListenerKinds))) := by
  constructor
  · intro hf
    simp only [Application.FindOrCreateChannelByChannelID, hf]
  · intro hn
    have hf : a.FindChannelByChannelID n =
        Except.error ("channel does not exists") := by
      simp only [Application.FindChannelByChannelID, hn]
    have hnk : n ∉ keysOf a.channels := (lookupKey_eq_none_iff n a.channels).mp hn
    refine ⟨?_, ?_, ?_⟩
    · simp only [Application.FindOrCreateChannelByChannelID, hf]
    · simp only [Application.FindOrCreateChannelByChannelID, hf]
    · simp only [Application.FindOrCreateChannelByChannelID, hf]
      show (a.AddChannel (Channel.New n allListenerKinds)).FindChannelByChannelID
        n = Except.ok (Channel.New n allListenerKinds)
      have hlk : lookupKey n
          ((a.AddChannel (Channel.New n allListenerKinds)).channels) =
          some (Channel.New n allListenerKinds) := by
        show lookupKey n
          (insertKey n (Channel.New n allListenerKinds) a.channels) = _
        rw [insertKey_of_none _ hn, lookupKey_append_right _ hnk, lookupKey_cons]
        simp
      simp only [Application.FindChannelByChannelID, hlk]

/-- Witness for C6: the registered channel room is returned as-is; a fresh
presence identifier creates, registers and returns a listener-wired
channel. -/
theorem findOrCreateChannel_spec_inst :
    appC1.FindOrCreateChannelByChannelID ("room") = (chRoom, appC1) ∧
    (appC1.FindOrCreateChannelByChannelID ("presence-x")).1 =
      Channel.New ("presence-x") allListenerKinds ∧
    ((appC1.FindOrCreateChannelByChannelID
        ("presence-x")).2.FindChannelByChannelID ("presence-x") =
      Except.ok (Channel.New ("presence-x") allListenerKinds)) :=
  ⟨(findOrCreateChannel_spec appC1 ("room") chRoom).1 rfl,
   ((findOrCreateChannel_spec appC1 ("presence-x") chRoom).2 rfl).1,
   ((findOrCreateChannel_spec appC1 ("presence-x") chRoom).2 rfl).2.2⟩

/-- Claim C8: for a well-formed registry the four pure filter queries
return exactly the registered channels of the requested kind, each exactly
once (no duplicates, and membership characterized by registry lookup plus
the kind predicate). -/
theorem filter_queries_spec (a : Application) (c : Channel)
    (h : WFChannels a) :
    ((a.Channels).Nodup ∧ (a.PresenceChannels).Nodup ∧
      (a.PrivateChannels).Nodup ∧ (a.PublicChannels).Nodup) ∧
    (c ∈ a.Channels ↔ lookupKey c.id a.channels = some c) ∧
    (c ∈ a.PresenceChannels ↔
      (lookupKey c.id a.channels = some c ∧ c.IsPresence = true)) ∧
    (c ∈ a.PrivateChannels ↔
      (lookupKey c.id a.channels = some c ∧ c.IsPrivate = true)) ∧
    (c ∈ a.PublicChannels ↔
      (lookupKey c.id a.channels = some c ∧ c.IsPublic = true)) := by
  obtain ⟨hnd, hid⟩ := h
  have hmapped : (a.Channels).map (fun d => d.id) = keysOf a.channels := by
    rw [Application.Channels, List.map_map, keysOf]
    apply List.map_congr_left
    intro p hp
    exact hid p hp
  have hndC : (a.Channels).Nodup := by
    apply List.Nodup.of_map (fun d => d.id)
    rw [hmapped]
    exact hnd
  have hmem : ∀ d : Channel,
      d ∈ a.Channels ↔ lookupKey d.id a.channels = some d := by
    intro d
    constructor
    · intro hd
      rcases List.mem_map.mp hd with ⟨p, hp, he⟩
      have hsnd : p.2 = d := he
      have hkey : p.1 = d.id := by
        rw [← hsnd]
        exact (hid p hp).symm
      have hpm : (d.id, d) ∈ a.channels := by
        have hpe : p = (d.id, d) := by
          rcases p with ⟨p1, p2⟩
          rw [Prod.mk.injEq]
          exact ⟨hkey, hsnd⟩
        rw [← hpe]
        exact hp
      exact lookupKey_of_mem_nodup hnd hpm
    · intro hd
      exact List.mem_map.mpr ⟨(d.id, d), lookupKey_mem hd, rfl⟩
  have hfilter : ∀ (q : Channel → Bool),
      c ∈ (a.Channels).filter q ↔
        (lookupKey c.id a.channels = some c ∧ q c = true) := by
    intro q
    rw [List.mem_filter, hmem c]
  refine ⟨⟨hndC, ?_, ?_, ?_⟩, hmem c, ?_, ?_, ?_⟩
  · exact List.Nodup.filter _ hndC
  · exact List.Nodup.filter _ hndC
  · exact List.Nodup.filter _ hndC
  · exact hfilter (fun d => d.IsPresence)
  · exact hfilter (fun d => d.IsPrivate)
  · exact hfilter (fun d => d.IsPublic)

/-- Witness for C8 at a concrete two-channel application: the presence
channel is listed by PresenceChannels, and the full listing has no
duplicates. -/
theorem filter_queries_spec_inst :
    chPres ∈ appC8.PresenceChannels ∧ (appC8.Channels).Nodup :=
  ⟨((filter_queries_spec appC8 chPres ⟨by decide, by decide⟩).2.2.1).mpr
      ⟨rfl, rfl⟩,
    (filter_queries_spec appC8 chPres ⟨by decide, by decide⟩).1.1⟩

theorem disconnect_ok_stale {a : Application} {sid : String}
    {conn0 : Connection} (hfc : a.FindConnection sid = Except.ok conn0)
    (hl : lookupKey conn0.socketID a.connections = none) :
    a.Disconnect sid =
      { a with channels := disconnectChannels a.channels conn0 } := by
  simp only [Application.Disconnect, hfc, hl]

theorem disconnect_ok_live {a : Application} {sid : String}
    {conn0 : Connection} {c2 : Connection}
    (hfc : a.FindConnection sid = Except.ok conn0)
    (hl : lookupKey conn0.socketID a.connections = some c2) :
    a.Disconnect sid =
      { a with channels := disconnectChannels a.channels conn0
               connections := eraseKey conn0.socketID a.connections
               totalConnections := a.totalConnections - 1 } := by
  simp only [Application.Disconnect, hfc, hl]

/-- The strengthened induction invariant: registries have distinct keys and
the counter invariants hold. -/
theorem reachable_inv {a : Application} (h : Reachable a) :
    RegInv a ∧ CounterInv a := by
  induction h with
  | base n i k s o e u w url =>
    refine ⟨⟨?_, ?_⟩, rfl, rfl, rfl⟩
    · simp [newApplication, keysOf_nil]
    · simp [newApplication, keysOf_nil]
  | connect a conn hr hguard ih =>
    obtain ⟨⟨hnc, hnch⟩, hc1, hc2, hc3⟩ := ih
    have hnk : conn.socketID ∉ keysOf a.connections :=
      (lookupKey_eq_none_iff _ _).mp hguard
    have happ : (a.Connect conn).connections =
        a.connections ++ [(conn.socketID, conn)] :=
      insertKey_of_none _ hguard
    refine ⟨⟨?_, hnch⟩, ?_, hc2, hc3⟩
    · show (keysOf ((a.Connect conn).connections)).Nodup
      rw [happ, keysOf_append, List.nodup_append]
      refine ⟨hnc, List.nodup_singleton _, ?_⟩
      intro x hx hx2
      rw [keysOf_cons, keysOf_nil] at hx2
      rcases List.mem_singleton.mp hx2 with hx2
      subst hx2
      exact hnk hx
    · show a.totalConnections + 1 = (((a.Connect conn).connections).length : Int)
      rw [happ, List.length_append]
      show a.totalConnections + 1 = ((a.connections.length + 1 : Nat) : Int)
      push_cast
      omega
  | disconnect a sid hr ih =>
    obtain ⟨⟨hnc, hnch⟩, hc1, hc2, hc3⟩ := ih
    rcases hf : lookupKey sid a.connections with _ | conn0
    · rw [disconnect_err (findConnection_none hf)]
      exact ⟨⟨hnc, hnch⟩, hc1, hc2, hc3⟩
    · have hfc : a.FindConnection sid = Except.ok conn0 := by
        simp only [Application.FindConnection, hf]
      rcases hl : lookupKey conn0.socketID a.connections with _ | c2
      · rw [disconnect_ok_stale hfc hl]
        refine ⟨⟨hnc, ?_⟩, hc1, ?_, hc3⟩
        · show (keysOf (disconnectChannels a.channels conn0)).Nodup
          rw [keysOf_disconnectChannels]
          exact hnch
        · show a.totalChannels =
            ((disconnectChannels a.channels conn0).length : Int)
          rw [length_disconnectChannels]
          exact hc2
      · rw [disconnect_ok_live hfc hl]
        have hm : conn0.socketID ∈ keysOf a.connections := by
          apply (lookupKey_isSome_iff _ _).mp
          rw [hl]
          rfl
        have hlen : (eraseKey conn0.socketID a.connections).length + 1 =
            a.connections.length := length_eraseKey_nodup hnc hm
        refine ⟨⟨?_, ?_⟩, ?_, ?_, hc3⟩
        · show (keysOf (eraseKey conn0.socketID a.connections)).Nodup
          exact (keysOf_eraseKey_sublist _ _).nodup hnc
        · show (keysOf (disconnectChannels a.channels conn0)).Nodup
          rw [keysOf_disconnectChannels]
          exact hnch
        · show a.totalConnections - 1 =
            ((eraseKey conn0.socketID a.connections).length : Int)
          omega
        · show a.totalChannels =
            ((disconnectChannels a.channels conn0).length : Int)
          rw [length_disconnectChannels]
          exact hc2
  | addChannel a c hr hguard ih =>
    obtain ⟨⟨hnc, hnch⟩, hc1, hc2, hc3⟩ := ih
    have hnk : c.id ∉ keysOf a.channels :=
      (lookupKey_eq_none_iff _ _).mp hguard
    have happ : (a.AddChannel c).channels = a.channels ++ [(c.id, c)] :=
      insertKey_of_none _ hguard
    refine ⟨⟨hnc, ?_⟩, hc1, ?_, ?_⟩
    · show (keysOf ((a.AddChannel c).channels)).Nodup
      rw [happ, keysOf_append, List.nodup_append]
      refine ⟨hnch, List.nodup_singleton _, ?_⟩
      intro x hx hx2
      rw [keysOf_cons, keysOf_nil] at hx2
      rcases List.mem_singleton.mp hx2 with hx2
      subst hx2
      exact hnk hx
    · show a.totalChannels + 1 = (((a.AddChannel c).channels).length : Int)
      rw [happ, List.length_append]
      show a.totalChannels + 1 = ((a.channels.length + 1 : Nat) : Int)
      push_cast
      omega
    · rcases channel_kind_cases c with ⟨hp, hq, hs⟩ | ⟨hp, hq, hs⟩ | ⟨hp, hq, hs⟩ <;>
        · show (if c.IsPresence then a.totalPresenceChannels + 1
              else a.totalPresenceChannels) +
            (if c.IsPrivate then a.totalPrivateChannels + 1
              else a.totalPrivateChannels) +
            (if c.IsPublic then a.totalPublicChannels + 1
              else a.totalPublicChannels) = a.totalChannels + 1
          simp only [hp, hq, hs]
          simp only [if_true, if_false, Bool.false_eq_true]
          omega
  | removeChannel a c hr hmem ih =>
    obtain ⟨⟨hnc, hnch⟩, hc1, hc2, hc3⟩ := ih
    have hlen : (eraseKey c.id a.channels).length + 1 = a.channels.length :=
      length_eraseKey_nodup hnch hmem
    refine ⟨⟨hnc, ?_⟩, hc1, ?_, ?_⟩
    · show (keysOf (eraseKey c.id a.channels)).Nodup
      exact (keysOf_eraseKey_sublist _ _).nodup hnch
    · show a.totalChannels - 1 = ((eraseKey c.id a.channels).length : Int)
      omega
    · rcases channel_kind_cases c with ⟨hp, hq, hs⟩ | ⟨hp, hq, hs⟩ | ⟨hp, hq, hs⟩ <;>
        · show (if c.IsPresence then a.totalPresenceChannels - 1
              else a.totalPresenceChannels) +
            (if c.IsPrivate then a.totalPrivateChannels - 1
              else a.totalPrivateChannels) +
            (if c.IsPublic then a.totalPublicChannels - 1
              else a.totalPublicChannels) = a.totalChannels - 1
          simp only [hp, hq, hs]
          simp only [if_true, if_false, Bool.false_eq_true]
          omega

/-- Claim C2, counterexample: the state reached by connecting the socket
identifier s1 twice is reachable by Connect operations alone, yet its
connection counter (2) differs from its connection-registry size (1). -/
theorem duplicate_connect_breaks_counter_invariant :
    ReachableRaw appDup ∧ ¬ CounterInv appDup :=
  ⟨ReachableRaw.connect _ _
      (ReachableRaw.connect _ _
        (ReachableRaw.base ("test") ("1") ("key") ("secret") false true false
          false (""))),
    fun h => absurd h.1 (by decide)⟩

/-- Claim C2, amended: the counter invariants hold in every state reachable
from a fresh application provided Connect is only called for socket
identifiers not currently registered, AddChannel only for channel
identifiers not currently registered, and RemoveChannel only for channels
whose identifier is currently registered; without those restrictions the
registry-size equalities fail (duplicate registrations and unregistered
removals drift the counters). -/
theorem reachable_counter_invariants (a : Application) (h : Reachable a) :
    CounterInv a :=
  (reachable_inv h).2

/-- Witness for the amended C2 theorem on a concrete guarded-reachable
state. -/
theorem reachable_counter_invariants_inst :
    CounterInv ((baseApp.Connect connA).AddChannel chPres) :=
  reachable_counter_invariants _
    (Reachable.addChannel _ _
      (Reachable.connect _ _
        (Reachable.base ("test") ("1") ("key") ("secret") false true false
          false ("")) rfl) rfl)

end Nuntius
